import Mathlib

/-!
Shallow embedding of the HostelSync laundry / room-booking core
(src/script.js): the machine lifecycle state machine, the minute tick,
the notice sink, the watch-free registry and the booking ledger.
Timestamps are integers (JS epoch milliseconds), ids are strings.
-/

namespace HostelSync

/-- Machine status strings from script.js. -/
inductive MStatus where
  | FREE
  | RUNNING
  | AWAITING
  | MAINT
deriving DecidableEq, Repr

/-- Wash record status strings from script.js. -/
inductive WStatus where
  | RUNNING
  | AWAITING
  | COLLECTED
deriving DecidableEq, Repr

/-- Booking status strings from script.js. -/
inductive BStatus where
  | PENDING
  | APPROVED
  | REJECTED
  | CANCELLED
deriving DecidableEq, Repr, Inhabited

/-- A laundry machine record (makeMachines / the mutators in script.js). -/
structure Machine where
  id : String
  label : String
  hostel : String
  floor : Nat
  status : MStatus
  eta : Option Int
  lastCompletedAt : Option Int
  nudgeCount : Int
  flagCount : Int
  ownerId : Option String
deriving DecidableEq, Repr

/-- A wash-history record (startWash in script.js). -/
structure Wash where
  id : String
  machineId : String
  machineLabel : String
  hostel : String
  floor : Nat
  startAt : Int
  endAt : Option Int
  status : WStatus
deriving DecidableEq, Repr

/-- A notice (pushNotice in script.js); `time` is the creation timestamp. -/
structure Notice where
  title : String
  time : Int
  kind : String
deriving DecidableEq, Repr

/-- A maintenance report entry (submitReport in script.js). -/
structure Report where
  id : String
  machineId : String
  reason : String
  notes : String
  photoDataUrl : Option String
  createdAt : Int
deriving DecidableEq, Repr

/-- A common room (makeRooms in script.js). -/
structure Room where
  id : String
  label : String
  hasAC : Bool
deriving DecidableEq, Repr

/-- A room booking (submitBooking in script.js). -/
structure Booking where
  id : String
  roomId : String
  roomLabel : String
  hasAC : Bool
  startAt : Int
  endAt : Int
  reason : String
  status : BStatus
  createdAt : Int
  updatedAt : Int
deriving DecidableEq, Repr, Inhabited

/-- The logged-in user (state.user in script.js). -/
structure User where
  id : String
  phone : Option String
  email : Option String
deriving DecidableEq, Repr

/-- The aggregate state blob (initState in script.js).  The nested
watchFree object `hostel -> floor -> bool` is flattened to an
association list over (hostel, floor) keys. -/
structure AppState where
  machines : List Machine
  washes : List Wash
  notices : List Notice
  reports : List Report
  rooms : List Room
  bookings : List Booking
  watchFree : List ((String × Nat) × Bool)
  user : Option User
deriving DecidableEq, Repr

/-- pushNotice (script.js:184): unshift the new notice, then pop the last
entry when the list has grown past 50. -/
def pushNotice (n : Notice) (ns : List Notice) : List Notice :=
  let l := n :: ns
  if l.length > 50 then l.dropLast else l

/-- State-level wrapper for pushNotice. -/
def pushNoticeS (s : AppState) (title kind : String) (now : Int) : AppState :=
  { s with notices := pushNotice { title := title, time := now, kind := kind } s.notices }

/-- startWash (script.js:304): mark the machine RUNNING with the given
ETA, reset nudge/flag counters, record the owner, unshift a RUNNING wash
record and emit an info notice. -/
def startWash (s : AppState) (machine : Machine) (minutes : Int) (now : Int)
    (washId : String) : AppState :=
  let s1 : AppState :=
    { s with
      machines := s.machines.map fun m =>
        if m.id = machine.id then
          { m with status := .RUNNING, eta := some minutes, nudgeCount := 0,
                   flagCount := 0, ownerId := s.user.map (fun u => u.id) }
        else m,
      washes :=
        { id := washId, machineId := machine.id, machineLabel := machine.label,
          hostel := machine.hostel, floor := machine.floor, startAt := now,
          endAt := none, status := .RUNNING } :: s.washes }
  pushNoticeS s1 ("Started wash on " ++ machine.label ++ ".") "info" now

/-- markCollected (script.js:338): free the machine, clear eta and
lastCompletedAt, move its RUNNING/AWAITING washes to COLLECTED with an
end timestamp, and emit a success notice. -/
def markCollected (s : AppState) (machine : Machine) (now : Int) : AppState :=
  let s1 : AppState :=
    { s with
      machines := s.machines.map fun m =>
        if m.id = machine.id then
          { m with status := .FREE, eta := none, lastCompletedAt := none }
        else m,
      washes := s.washes.map fun w =>
        if w.machineId = machine.id ∧ (w.status = .AWAITING ∨ w.status = .RUNNING) then
          { w with status := .COLLECTED, endAt := some now }
        else w }
  pushNoticeS s1 ("Thank you! " ++ machine.label ++ " is free now.") "success" now

/-- sendReminderEmail (script.js:1775): when the machine has an owner who
is the logged-in user and has a phone or email, record a reminder notice. -/
def sendReminderEmail (s : AppState) (machine : Machine) (now : Int) : AppState :=
  match machine.ownerId with
  | none => s
  | some oid =>
    match s.user with
    | none => s
    | some u =>
      if u.id = oid then
        match u.phone.orElse (fun _ => u.email) with
        | none => s
        | some contact =>
          pushNoticeS s
            ("Reminder sent to " ++ contact ++ " to collect clothes from " ++
              machine.label ++ ".") "info" now
      else s

/-- nudgeMachine (script.js:363): bump the nudge counter; from the third
nudge on emit a warning notice and try to send the owner a reminder,
otherwise emit a plain info notice. -/
def nudgeMachine (s : AppState) (machine : Machine) (now : Int) : AppState :=
  let c := machine.nudgeCount + 1
  let s1 : AppState :=
    { s with
      machines := s.machines.map fun m =>
        if m.id = machine.id then { m with nudgeCount := m.nudgeCount + 1 } else m }
  if c ≥ 3 then
    sendReminderEmail
      (pushNoticeS s1
        ("Multiple nudges sent for " ++ machine.label ++ ". Please collect your clothes.")
        "warning" now)
      { machine with nudgeCount := c } now
  else
    pushNoticeS s1 ("A nudge was sent for " ++ machine.label ++ ".") "info" now

/-- The per-machine mutation of flagMachine (script.js:384): bump the
flag counter; at two flags reset both counters, force AWAITING and
refresh lastCompletedAt. -/
def flagStep (m : Machine) (now : Int) : Machine :=
  let c := m.flagCount + 1
  if c ≥ 2 then
    { m with flagCount := 0, nudgeCount := 0, status := .AWAITING,
             lastCompletedAt := some now }
  else { m with flagCount := c }

/-- flagMachine (script.js:384): apply `flagStep` to the machine and emit
a report notice at two flags, else a plain info notice. -/
def flagMachine (s : AppState) (machine : Machine) (now : Int) : AppState :=
  let s1 : AppState :=
    { s with
      machines := s.machines.map fun m =>
        if m.id = machine.id then flagStep m now else m }
  if machine.flagCount + 1 ≥ 2 then
    pushNoticeS s1
      (machine.label ++ " flagged as still occupied. Please collect your clothes.")
      "report" now
  else
    pushNoticeS s1
      ("Flag recorded for " ++ machine.label ++ ". One more flag will apply a penalty.")
      "info" now

/-- submitReport (script.js:404): unshift a report entry, emit a report
notice, and when affectStatus is set force the machine to MAINT and
clear its eta. -/
def submitReport (s : AppState) (machineId reason notes : String)
    (photoDataUrl : Option String) (affectStatus : Bool) (now : Int)
    (reportId : String) : AppState :=
  let s1 : AppState :=
    { s with reports :=
        { id := reportId, machineId := machineId, reason := reason, notes := notes,
          photoDataUrl := photoDataUrl, createdAt := now } :: s.reports }
  let s2 := pushNoticeS s1 ("Report submitted for " ++ machineId ++ ".") "report" now
  if affectStatus then
    { s2 with
      machines := s2.machines.map fun m =>
        if m.id = machineId then { m with status := .MAINT, eta := none } else m }
  else s2

/-- Free-machine count on one (hostel, floor) — the freeBefore/freeAfter
snapshots built at script.js:433 and script.js:467 (missing keys default
to 0). -/
def countFree (ms : List Machine) (hostel : String) (floor : Nat) : Nat :=
  (ms.filter fun m => m.hostel = hostel ∧ m.floor = floor ∧ m.status = .FREE).length

/-- The wash update applied when a machine finishes (script.js:450):
RUNNING washes of that machine become AWAITING with an end timestamp. -/
def washStep (mid : String) (now : Int) (w : Wash) : Wash :=
  if w.machineId = mid ∧ w.status = .RUNNING then
    { w with status := .AWAITING, endAt := some now }
  else w

/-- Accumulator threaded through the per-machine countdown loop of the
tick handler: the rebuilt machine list plus the washes and notices that
the loop body mutates as it goes. -/
structure TickAcc where
  machines : List Machine
  washes : List Wash
  notices : List Notice
deriving DecidableEq, Repr

/-- One iteration of the countdown map in the tick handler
(script.js:440-465): a RUNNING machine with an eta counts down by one;
at exactly 3 remaining an info notice fires; at 0 or below the machine
becomes AWAITING, its RUNNING washes end, and a success notice fires. -/
def tickStep (now : Int) (acc : TickAcc) (m : Machine) : TickAcc :=
  if m.status = .RUNNING ∧ m.eta.isSome then
    let e := m.eta.getD 0 - 1
    let ns1 :=
      if e = 3 then
        pushNotice { title := m.label ++ " finishing in ~3 minutes.",
                     time := now, kind := "info" } acc.notices
      else acc.notices
    if e ≤ 0 then
      { machines := acc.machines ++
          [{ m with status := .AWAITING, eta := none, lastCompletedAt := some now }],
        washes := acc.washes.map (washStep m.id now),
        notices := pushNotice { title := m.label ++ " finished. Please collect clothes.",
                                time := now, kind := "success" } ns1 }
    else
      { machines := acc.machines ++ [{ m with eta := some e }],
        washes := acc.washes,
        notices := ns1 }
  else { acc with machines := acc.machines ++ [m] }

/-- One iteration of the watch-free scan (script.js:474-485): a raised
flag whose floor had no free machine before the transitions but has one
after yields a success notice and is lowered; every other entry is kept
as is. -/
def watchFreeStep (fb fa : String → Nat → Nat) (now : Int)
    (acc : List ((String × Nat) × Bool) × List Notice)
    (e : (String × Nat) × Bool) :
    List ((String × Nat) × Bool) × List Notice :=
  if e.2 then
    let before := fb e.1.1 e.1.2
    let after := fa e.1.1 e.1.2
    if before = 0 ∧ 0 < after then
      (acc.1 ++ [(e.1, false)],
       pushNotice { title := "A machine is now free on Floor " ++ toString e.1.2 ++ ".",
                    time := now, kind := "success" } acc.2)
    else (acc.1 ++ [e], acc.2)
  else (acc.1 ++ [e], acc.2)

/-- The watch-free scan over all flags (script.js:473-485), given the
before/after free-count snapshots. -/
def watchFreeCheck (fb fa : String → Nat → Nat) (now : Int)
    (wf : List ((String × Nat) × Bool)) (ns : List Notice) :
    List ((String × Nat) × Bool) × List Notice :=
  wf.foldl (watchFreeStep fb fa now) ([], ns)

/-- The body of the minute interval installed by startTick
(script.js:431-486): snapshot the per-floor free counts, run the
per-machine countdown, snapshot again, then run the watch-free scan. -/
def tick (s : AppState) (now : Int) : AppState :=
  let fb := countFree s.machines
  let acc := s.machines.foldl (tickStep now)
    { machines := [], washes := s.washes, notices := s.notices }
  let fa := countFree acc.machines
  let wfn := watchFreeCheck fb fa now s.watchFree acc.notices
  { s with machines := acc.machines, washes := acc.washes,
           notices := wfn.2, watchFree := wfn.1 }

/-- checkConflict (script.js:524): some booking on the same room, not
CANCELLED or REJECTED, overlaps the open interval. -/
def checkConflict (bs : List Booking) (roomId : String) (startAt endAt : Int) : Bool :=
  bs.any fun b =>
    if b.roomId ≠ roomId then false
    else if b.status = .CANCELLED ∨ b.status = .REJECTED then false
    else decide (startAt < b.endAt ∧ endAt > b.startAt)

/-- submitBooking (script.js:535): unconditionally unshift a PENDING
booking and emit an info notice (no duration or conflict validation
happens inside this function). -/
def submitBooking (s : AppState) (room : Room) (startAt endAt : Int)
    (reason : String) (now : Int) (bookingId : String) : AppState :=
  let booking : Booking :=
    { id := bookingId, roomId := room.id, roomLabel := room.label,
      hasAC := room.hasAC, startAt := startAt, endAt := endAt, reason := reason,
      status := .PENDING, createdAt := now, updatedAt := now }
  pushNoticeS { s with bookings := booking :: s.bookings }
    ("Request submitted for " ++ room.label ++ ".") "info" now

/-- cancelBooking (script.js:585): a PENDING or APPROVED booking becomes
CANCELLED; anything else is a silent no-op. -/
def cancelBooking (s : AppState) (id : String) (now : Int) : AppState :=
  match s.bookings.findIdx? (fun b => b.id == id) with
  | none => s
  | some idx =>
    let booking := s.bookings.getD idx default
    if booking.status = .PENDING ∨ booking.status = .APPROVED then
      let updated : Booking := { booking with status := .CANCELLED, updatedAt := now }
      pushNoticeS { s with bookings := s.bookings.set idx updated }
        ("Booking cancelled for " ++ booking.roomLabel ++ ".") "info" now
    else s

/-- extendBooking (script.js:606): only an APPROVED booking; reject past
24 hours from the original start, or on a conflict (the scan runs over
all bookings, the extended booking included); on success update endAt
and fall back to PENDING.  The second component is the alert message
reported to the caller, if any. -/
def extendBooking (s : AppState) (id : String) (newEndAt : Int) (now : Int) :
    AppState × Option String :=
  match s.bookings.findIdx? (fun b => b.id == id) with
  | none => (s, none)
  | some idx =>
    let booking := s.bookings.getD idx default
    if booking.status = .APPROVED then
      let diff := newEndAt - booking.startAt
      if diff > 24 * 60 * 60 * 1000 then
        (s, some "Extension exceeds 24 hours from start time.")
      else if checkConflict s.bookings booking.roomId booking.startAt newEndAt then
        (s, some "Requested extension overlaps with another booking.")
      else
        let updated : Booking :=
          { booking with endAt := newEndAt, status := .PENDING, updatedAt := now }
        (pushNoticeS { s with bookings := s.bookings.set idx updated }
          ("Extension requested for " ++ booking.roomLabel ++ ".") "info" now,
         none)
    else (s, none)

/-- modifyBooking (script.js:639): only a PENDING or APPROVED booking;
validate ordering, the 24-hour cap and conflicts (again over all
bookings, the modified one included); on success update the range and
reason and fall back to PENDING. -/
def modifyBooking (s : AppState) (id : String) (newStartAt newEndAt : Int)
    (newReason : Option String) (now : Int) : AppState × Option String :=
  match s.bookings.findIdx? (fun b => b.id == id) with
  | none => (s, none)
  | some idx =>
    let booking := s.bookings.getD idx default
    if booking.status = .PENDING ∨ booking.status = .APPROVED then
      let diff := newEndAt - newStartAt
      if diff ≤ 0 then (s, some "End time must be after start time.")
      else if diff > 24 * 60 * 60 * 1000 then
        (s, some "Bookings cannot exceed 24 hours.")
      else if checkConflict s.bookings booking.roomId newStartAt newEndAt then
        (s, some "Requested times overlap with another booking.")
      else
        let updated : Booking :=
          { booking with startAt := newStartAt, endAt := newEndAt,
                         reason := newReason.getD booking.reason,
                         status := .PENDING, updatedAt := now }
        (pushNoticeS { s with bookings := s.bookings.set idx updated }
          ("Booking modified for " ++ booking.roomLabel ++ ".") "info" now,
         none)
    else (s, none)

/-- The machine invariant stated by the spec: eta present exactly on
RUNNING, lastCompletedAt present exactly on AWAITING. -/
def MInv (m : Machine) : Prop :=
  (m.status = .RUNNING ↔ m.eta.isSome = true) ∧
  (m.status = .AWAITING ↔ m.lastCompletedAt.isSome = true)

instance (m : Machine) : Decidable (MInv m) := by
  unfold MInv
  infer_instance

/-! ### Pointwise characterizations of the tick fold

The tick handler threads washes and notices through a stateful loop; the
following definitions give the equivalent per-element view that the
theorems below prove equal to the fold. -/

/-- What one tick does to a single machine record. -/
def tickMachine (m : Machine) (now : Int) : Machine :=
  if m.status = .RUNNING ∧ m.eta.isSome then
    if m.eta.getD 0 - 1 ≤ 0 then
      { m with status := .AWAITING, eta := none, lastCompletedAt := some now }
    else { m with eta := some (m.eta.getD 0 - 1) }
  else m

/-- Whether this tick completes the machine (RUNNING with a decremented
eta at or below zero). -/
def completesAt (m : Machine) : Bool :=
  decide ((m.status = .RUNNING ∧ m.eta.isSome = true) ∧ m.eta.getD 0 - 1 ≤ 0)

/-- What one tick does to a single wash record, given the machine list
the tick ran over. -/
def tickWash (ms : List Machine) (now : Int) (w : Wash) : Wash :=
  if w.status = .RUNNING ∧ ∃ m ∈ ms, completesAt m = true ∧ m.id = w.machineId then
    { w with status := .AWAITING, endAt := some now }
  else w

/-- The notices the countdown emits for one machine, oldest first. -/
def tickEmits (now : Int) (m : Machine) : List Notice :=
  if m.status = .RUNNING ∧ m.eta.isSome then
    (if m.eta.getD 0 - 1 = 3 then
      [{ title := m.label ++ " finishing in ~3 minutes.", time := now, kind := "info" }]
     else []) ++
    (if m.eta.getD 0 - 1 ≤ 0 then
      [{ title := m.label ++ " finished. Please collect clothes.", time := now,
         kind := "success" }]
     else [])
  else []

/-- Push a batch of notices in order through the capped sink. -/
def pushAll (ns : List Notice) (new : List Notice) : List Notice :=
  new.foldl (fun acc n => pushNotice n acc) ns

/-- What the watch-free scan does to a single flag entry. -/
def wfUpdate (fb fa : String → Nat → Nat) (e : (String × Nat) × Bool) :
    (String × Nat) × Bool :=
  if e.2 ∧ fb e.1.1 e.1.2 = 0 ∧ 0 < fa e.1.1 e.1.2 then (e.1, false) else e

/-- The notice the watch-free scan emits for a single flag entry. -/
def wfEmits (fb fa : String → Nat → Nat) (now : Int) (e : (String × Nat) × Bool) :
    List Notice :=
  if e.2 ∧ fb e.1.1 e.1.2 = 0 ∧ 0 < fa e.1.1 e.1.2 then
    [{ title := "A machine is now free on Floor " ++ toString e.1.2 ++ ".",
       time := now, kind := "success" }]
  else []

/-! ### Concrete fixtures used by witnesses and counterexamples -/

/-- An empty aggregate state. -/
def emptyState : AppState :=
  { machines := [], washes := [], notices := [], reports := [], rooms := [],
    bookings := [], watchFree := [], user := none }

/-- A RUNNING machine with 5 minutes left and one prior flag. -/
def mRun : Machine :=
  { id := "m1", label := "M-1A", hostel := "LVH", floor := 1, status := .RUNNING,
    eta := some 5, lastCompletedAt := none, nudgeCount := 0, flagCount := 1,
    ownerId := none }

/-- A RUNNING machine in its last minute. -/
def mRun1 : Machine := { mRun with eta := some 1, flagCount := 0 }

/-- A RUNNING machine with 4 minutes left. -/
def mRun4 : Machine := { mRun with eta := some 4, flagCount := 0 }

/-- An AWAITING machine. -/
def mAwait : Machine :=
  { id := "m2", label := "M-1B", hostel := "LVH", floor := 1, status := .AWAITING,
    eta := none, lastCompletedAt := some 50, nudgeCount := 0, flagCount := 0,
    ownerId := none }

/-- A RUNNING wash record on machine m1. -/
def wRun : Wash :=
  { id := "w1", machineId := "m1", machineLabel := "M-1A", hostel := "LVH",
    floor := 1, startAt := 0, endAt := none, status := .RUNNING }

/-- An APPROVED one-hour booking on room CR-1. -/
def bApproved : Booking :=
  { id := "b1", roomId := "CR-1", roomLabel := "Common Room 1", hasAC := true,
    startAt := 0, endAt := 3600000, reason := "study", status := .APPROVED,
    createdAt := 0, updatedAt := 0 }

/-- A PENDING copy of the booking. -/
def bPending : Booking := { bApproved with status := .PENDING }

/-- Room CR-1. -/
def room1 : Room := { id := "CR-1", label := "Common Room 1", hasAC := true }

/-- A throwaway notice. -/
def nTest : Notice := { title := "t", time := 0, kind := "info" }

/-- State holding just the approved booking. -/
def sBook : AppState := { emptyState with bookings := [bApproved] }

/-- State holding just the pending booking. -/
def sBookP : AppState := { emptyState with bookings := [bPending] }

/-- State with one machine in its last minute and its wash record. -/
def sTick : AppState := { emptyState with machines := [mRun1], washes := [wRun] }

/-- State with the flagged RUNNING machine. -/
def sC1 : AppState := { emptyState with machines := [mRun] }

/-- State with the AWAITING machine. -/
def sC1b : AppState := { emptyState with machines := [mAwait] }

/-! ### Helper lemmas -/

theorem pushNotice_eq_ite (n : Notice) (ns : List Notice) :
    pushNotice n ns = if 50 < ns.length + 1 then (n :: ns).dropLast else n :: ns := by
  simp [pushNotice]

theorem pushNotice_head (n : Notice) (ns : List Notice) :
    (pushNotice n ns).head? = some n := by
  rw [pushNotice_eq_ite]
  split
  next h =>
    cases ns with
    | nil => simp at h
    | cons x xs => rw [List.dropLast_cons₂]; rfl
  next _ => rfl

theorem pushNotice_length_le (n : Notice) (ns : List Notice) (h : ns.length ≤ 50) :
    (pushNotice n ns).length ≤ 50 := by
  rw [pushNotice_eq_ite]
  by_cases h2 : 50 < ns.length + 1 <;>
    simp [h2, List.length_dropLast] <;> omega

theorem pushNotice_of_lt (n : Notice) (ns : List Notice) (h : ns.length < 50) :
    pushNotice n ns = n :: ns := by
  rw [pushNotice_eq_ite, if_neg]
  omega

theorem pushNotice_of_eq (n : Notice) (ns : List Notice) (h : ns.length = 50) :
    pushNotice n ns = n :: ns.dropLast := by
  rw [pushNotice_eq_ite, if_pos]
  · match ns with
    | [] => simp at h
    | x :: xs => exact List.dropLast_cons₂ ..
  · omega

theorem pushAll_append (ns a b : List Notice) :
    pushAll ns (a ++ b) = pushAll (pushAll ns a) b := by
  unfold pushAll
  exact List.foldl_append ..

theorem pushAll_length_le (ns new : List Notice) (h : ns.length ≤ 50) :
    (pushAll ns new).length ≤ 50 := by
  induction new generalizing ns with
  | nil => exact h
  | cons n rest ih =>
    exact ih (pushNotice n ns) (pushNotice_length_le n ns h)

theorem conflictPred_iff (roomId : String) (startAt endAt : Int) (b : Booking) :
    ((if b.roomId ≠ roomId then false
      else if b.status = .CANCELLED ∨ b.status = .REJECTED then false
      else decide (startAt < b.endAt ∧ endAt > b.startAt)) = true) ↔
      (b.roomId = roomId ∧ b.status ≠ .CANCELLED ∧ b.status ≠ .REJECTED ∧
        startAt < b.endAt ∧ endAt > b.startAt) := by
  by_cases h1 : b.roomId = roomId
  · by_cases h2 : b.status = .CANCELLED ∨ b.status = .REJECTED
    · simp [h1, h2]
      rcases h2 with h2 | h2 <;> simp [h2]
    · push_neg at h2
      simp [h1, h2.1, h2.2, and_assoc]
  · simp [h1]

theorem checkConflict_iff (bs : List Booking) (roomId : String) (startAt endAt : Int) :
    checkConflict bs roomId startAt endAt = true ↔
      ∃ b ∈ bs, b.roomId = roomId ∧ b.status ≠ .CANCELLED ∧ b.status ≠ .REJECTED ∧
        startAt < b.endAt ∧ endAt > b.startAt := by
  unfold checkConflict
  rw [List.any_eq_true]
  constructor
  · rintro ⟨b, hb, hp⟩
    exact ⟨b, hb, (conflictPred_iff roomId startAt endAt b).mp hp⟩
  · rintro ⟨b, hb, hp⟩
    exact ⟨b, hb, (conflictPred_iff roomId startAt endAt b).mpr hp⟩

theorem tickStep_machines (now : Int) (acc : TickAcc) (m : Machine) :
    (tickStep now acc m).machines = acc.machines ++ [tickMachine m now] := by
  unfold tickStep tickMachine
  by_cases h : m.status = .RUNNING ∧ m.eta.isSome = true
  · by_cases h2 : m.eta.getD 0 - 1 ≤ 0 <;> simp [h, h2]
  · simp [h]

theorem tickStep_washes (now : Int) (acc : TickAcc) (m : Machine) :
    (tickStep now acc m).washes =
      if completesAt m = true then acc.washes.map (washStep m.id now) else acc.washes := by
  unfold tickStep completesAt
  by_cases h : m.status = .RUNNING ∧ m.eta.isSome = true
  · by_cases h2 : m.eta.getD 0 - 1 ≤ 0 <;> simp [h, h2]
  · simp [h]

theorem tickStep_notices (now : Int) (acc : TickAcc) (m : Machine) :
    (tickStep now acc m).notices = pushAll acc.notices (tickEmits now m) := by
  unfold tickStep tickEmits pushAll
  by_cases h : m.status = .RUNNING ∧ m.eta.isSome = true
  · by_cases h3 : m.eta.getD 0 - 1 = 3
    · have h0 : ¬ m.eta.getD 0 - 1 ≤ 0 := by omega
      simp [h, h3, h0]
    · by_cases h0 : m.eta.getD 0 - 1 ≤ 0 <;> simp [h, h3, h0]
  · simp [h]

theorem foldl_tickStep_machines (now : Int) (ms : List Machine) (acc : TickAcc) :
    (ms.foldl (tickStep now) acc).machines =
      acc.machines ++ ms.map (fun m => tickMachine m now) := by
  induction ms generalizing acc with
  | nil => simp
  | cons m rest ih =>
    rw [List.foldl_cons, ih, tickStep_machines]
    simp

theorem tickWash_nil (now : Int) (w : Wash) : tickWash [] now w = w := by
  simp [tickWash]

theorem tickWash_cons_completes (m : Machine) (rest : List Machine) (now : Int)
    (w : Wash) (hc : completesAt m = true) :
    tickWash rest now (washStep m.id now w) = tickWash (m :: rest) now w := by
  unfold tickWash washStep
  by_cases h1 : w.machineId = m.id
  · by_cases h2 : w.status = .RUNNING
    · simp [h1, h2, hc]
    · simp [h1, h2]
  · have h1' : ¬ m.id = w.machineId := fun h => h1 h.symm
    by_cases h2 : w.status = .RUNNING <;>
      simp [h1, h1', h2]

theorem tickWash_cons_not_completes (m : Machine) (rest : List Machine) (now : Int)
    (w : Wash) (hc : ¬ completesAt m = true) :
    tickWash rest now w = tickWash (m :: rest) now w := by
  unfold tickWash
  simp [hc]

theorem foldl_tickStep_washes (now : Int) (ms : List Machine) (acc : TickAcc) :
    (ms.foldl (tickStep now) acc).washes = acc.washes.map (tickWash ms now) := by
  induction ms generalizing acc with
  | nil =>
    rw [List.foldl_nil, List.map_congr_left (fun w _ => tickWash_nil now w)]
    simp
  | cons m rest ih =>
    rw [List.foldl_cons, ih, tickStep_washes]
    by_cases hc : completesAt m = true
    · rw [if_pos hc, List.map_map]
      exact List.map_congr_left fun w _ => tickWash_cons_completes m rest now w hc
    · rw [if_neg hc]
      exact List.map_congr_left fun w _ => tickWash_cons_not_completes m rest now w hc

theorem foldl_tickStep_notices (now : Int) (ms : List Machine) (acc : TickAcc) :
    (ms.foldl (tickStep now) acc).notices =
      pushAll acc.notices (ms.flatMap (tickEmits now)) := by
  induction ms generalizing acc with
  | nil => simp [pushAll]
  | cons m rest ih =>
    rw [List.foldl_cons, ih, tickStep_notices, List.flatMap_cons, pushAll_append]

theorem watchFreeStep_eq (fb fa : String → Nat → Nat) (now : Int)
    (acc : List ((String × Nat) × Bool) × List Notice) (e : (String × Nat) × Bool) :
    watchFreeStep fb fa now acc e =
      (acc.1 ++ [wfUpdate fb fa e], pushAll acc.2 (wfEmits fb fa now e)) := by
  unfold watchFreeStep wfUpdate wfEmits pushAll
  by_cases h2 : e.2
  · by_cases hc : fb e.1.1 e.1.2 = 0 ∧ 0 < fa e.1.1 e.1.2 <;> simp [h2, hc]
  · simp [h2]

theorem foldl_watchFreeStep (fb fa : String → Nat → Nat) (now : Int)
    (wf : List ((String × Nat) × Bool)) (pre : List ((String × Nat) × Bool))
    (ns : List Notice) :
    wf.foldl (watchFreeStep fb fa now) (pre, ns) =
      (pre ++ wf.map (wfUpdate fb fa), pushAll ns (wf.flatMap (wfEmits fb fa now))) := by
  induction wf generalizing pre ns with
  | nil => simp [pushAll]
  | cons e rest ih =>
    rw [List.foldl_cons, watchFreeStep_eq, ih, List.flatMap_cons, pushAll_append]
    simp

theorem watchFreeCheck_eq (fb fa : String → Nat → Nat) (now : Int)
    (wf : List ((String × Nat) × Bool)) (ns : List Notice) :
    watchFreeCheck fb fa now wf ns =
      (wf.map (wfUpdate fb fa), pushAll ns (wf.flatMap (wfEmits fb fa now))) := by
  unfold watchFreeCheck
  rw [foldl_watchFreeStep]
  simp

theorem tick_machines_eq (s : AppState) (now : Int) :
    (tick s now).machines = s.machines.map (fun m => tickMachine m now) := by
  unfold tick
  simp [foldl_tickStep_machines]

theorem tick_washes_eq (s : AppState) (now : Int) :
    (tick s now).washes = s.washes.map (tickWash s.machines now) := by
  unfold tick
  simp [foldl_tickStep_washes]

theorem tick_watchFree_eq (s : AppState) (now : Int) :
    (tick s now).watchFree =
      s.watchFree.map
        (wfUpdate (countFree s.machines)
          (countFree (s.machines.map (fun m => tickMachine m now)))) := by
  unfold tick
  simp [watchFreeCheck_eq, foldl_tickStep_machines]

theorem tick_notices_eq (s : AppState) (now : Int) :
    (tick s now).notices =
      pushAll s.notices
        (s.machines.flatMap (tickEmits now) ++
          s.watchFree.flatMap
            (wfEmits (countFree s.machines)
              (countFree (s.machines.map (fun m => tickMachine m now))) now)) := by
  unfold tick
  simp [watchFreeCheck_eq, foldl_tickStep_machines, foldl_tickStep_notices,
    pushAll_append]

theorem tickMachine_not_running (m : Machine) (now : Int) (h : m.status ≠ .RUNNING) :
    tickMachine m now = m := by
  unfold tickMachine
  simp [h]

theorem tickMachine_running (m : Machine) (now : Int) (e : Int)
    (hs : m.status = .RUNNING) (he : m.eta = some e) :
    tickMachine m now =
      (if e - 1 ≤ 0 then
        { m with status := .AWAITING, eta := none, lastCompletedAt := some now }
       else { m with eta := some (e - 1) }) := by
  unfold tickMachine
  simp [hs, he]

theorem tickMachine_free_iff (m : Machine) (now : Int) :
    (tickMachine m now).status = .FREE ↔ m.status = .FREE := by
  unfold tickMachine
  by_cases h : m.status = .RUNNING ∧ m.eta.isSome = true
  · by_cases h2 : m.eta.getD 0 - 1 ≤ 0 <;> simp [h, h2, h.1]
  · simp [h]

theorem tickMachine_hostel (m : Machine) (now : Int) :
    (tickMachine m now).hostel = m.hostel := by
  unfold tickMachine
  by_cases h : m.status = .RUNNING ∧ m.eta.isSome = true
  · by_cases h2 : m.eta.getD 0 - 1 ≤ 0 <;> simp [h, h2]
  · simp [h]

theorem tickMachine_floor (m : Machine) (now : Int) :
    (tickMachine m now).floor = m.floor := by
  unfold tickMachine
  by_cases h : m.status = .RUNNING ∧ m.eta.isSome = true
  · by_cases h2 : m.eta.getD 0 - 1 ≤ 0 <;> simp [h, h2]
  · simp [h]

theorem countFree_map_tickMachine (ms : List Machine) (now : Int)
    (hostel : String) (floor : Nat) :
    countFree (ms.map (fun m => tickMachine m now)) hostel floor =
      countFree ms hostel floor := by
  unfold countFree
  induction ms with
  | nil => rfl
  | cons m rest ih =>
    rw [List.map_cons, List.filter_cons, List.filter_cons]
    by_cases hm : m.hostel = hostel ∧ m.floor = floor ∧ m.status = .FREE
    · have hm' : (tickMachine m now).hostel = hostel ∧
          (tickMachine m now).floor = floor ∧ (tickMachine m now).status = .FREE := by
        rw [tickMachine_hostel, tickMachine_floor, tickMachine_free_iff]
        exact hm
      rw [if_pos (by simpa using hm'), if_pos (by simpa using hm)]
      simpa using ih
    · have hm' : ¬ ((tickMachine m now).hostel = hostel ∧
          (tickMachine m now).floor = floor ∧ (tickMachine m now).status = .FREE) := by
        rw [tickMachine_hostel, tickMachine_floor, tickMachine_free_iff]
        exact hm
      rw [if_neg (by simpa using hm'), if_neg (by simpa using hm)]
      exact ih

theorem MInv_eta_none (m : Machine) (h : MInv m) (hs : m.status ≠ .RUNNING) :
    m.eta = none := by
  rcases h with ⟨h1, -⟩
  rw [← Option.not_isSome_iff_eq_none]
  intro hsome
  exact hs (h1.mpr hsome)

theorem MInv_lca_none (m : Machine) (h : MInv m) (hs : m.status ≠ .AWAITING) :
    m.lastCompletedAt = none := by
  rcases h with ⟨-, h2⟩
  rw [← Option.not_isSome_iff_eq_none]
  intro hsome
  exact hs (h2.mpr hsome)

theorem MInv_tickMachine (m : Machine) (now : Int) (h : MInv m) :
    MInv (tickMachine m now) := by
  unfold tickMachine
  by_cases hr : m.status = .RUNNING ∧ m.eta.isSome = true
  · have hlca : m.lastCompletedAt = none := by
      apply MInv_lca_none m h
      rw [hr.1]
      intro hc
      exact absurd hc (by intro hx; cases hx)
    by_cases h0 : m.eta.getD 0 - 1 ≤ 0
    · simp [hr, h0, MInv]
    · simp [hr, h0, MInv, hr.1, hlca]
  · simp only [hr, if_false, if_neg hr]
    exact h

theorem MInv_flagStep (m : Machine) (now : Int) (h : MInv m)
    (hs : m.status ≠ .RUNNING) : MInv (flagStep m now) := by
  have heta : m.eta = none := MInv_eta_none m h hs
  unfold flagStep
  by_cases hc : m.flagCount + 1 ≥ 2
  · simp [hc, MInv, heta]
  · simp only [hc, if_false, if_neg hc]
    exact h

theorem MInv_startStep (m : Machine) (minutes : Int) (oid : Option String)
    (h : MInv m) (hs : m.status ≠ .AWAITING) :
    MInv { m with status := .RUNNING, eta := some minutes, nudgeCount := 0,
                  flagCount := 0, ownerId := oid } := by
  have hlca : m.lastCompletedAt = none := MInv_lca_none m h hs
  simp [MInv, hlca]

theorem MInv_freeStep (m : Machine) :
    MInv { m with status := .FREE, eta := none, lastCompletedAt := none } := by
  simp [MInv]

theorem MInv_nudgeStep (m : Machine) (h : MInv m) :
    MInv { m with nudgeCount := m.nudgeCount + 1 } := by
  exact h

theorem MInv_maintStep (m : Machine) (h : MInv m) (hs : m.status ≠ .AWAITING) :
    MInv { m with status := .MAINT, eta := none } := by
  have hlca : m.lastCompletedAt = none := MInv_lca_none m h hs
  simp [MInv, hlca]

theorem sendReminderEmail_machines (s : AppState) (machine : Machine) (now : Int) :
    (sendReminderEmail s machine now).machines = s.machines := by
  unfold sendReminderEmail
  cases h1 : machine.ownerId with
  | none => rfl
  | some oid =>
    cases h2 : s.user with
    | none => rfl
    | some u =>
      by_cases h3 : u.id = oid
      · cases h4 : u.phone.orElse (fun _ => u.email) with
        | none => simp [h3, h4]
        | some c => simp [h3, h4, pushNoticeS]
      · simp [h3]

theorem sendReminderEmail_notices_le (s : AppState) (machine : Machine) (now : Int)
    (h : s.notices.length ≤ 50) :
    (sendReminderEmail s machine now).notices.length ≤ 50 := by
  unfold sendReminderEmail
  cases h1 : machine.ownerId with
  | none => exact h
  | some oid =>
    cases h2 : s.user with
    | none => exact h
    | some u =>
      by_cases h3 : u.id = oid
      · cases h4 : u.phone.orElse (fun _ => u.email) with
        | none => simp only [h3, h4, if_pos]; exact h
        | some c =>
          simp only [h3, h4, if_pos, pushNoticeS]
          exact pushNotice_length_le _ _ h
      · simp only [h3, if_neg, if_false]
        exact h

theorem startWash_machines (s : AppState) (machine : Machine) (minutes now : Int)
    (washId : String) :
    (startWash s machine minutes now washId).machines =
      s.machines.map fun m =>
        if m.id = machine.id then
          { m with status := .RUNNING, eta := some minutes, nudgeCount := 0,
                   flagCount := 0, ownerId := s.user.map (fun u => u.id) }
        else m := rfl

theorem markCollected_machines (s : AppState) (machine : Machine) (now : Int) :
    (markCollected s machine now).machines =
      s.machines.map fun m =>
        if m.id = machine.id then
          { m with status := .FREE, eta := none, lastCompletedAt := none }
        else m := rfl

theorem nudgeMachine_machines (s : AppState) (machine : Machine) (now : Int) :
    (nudgeMachine s machine now).machines =
      s.machines.map fun m =>
        if m.id = machine.id then { m with nudgeCount := m.nudgeCount + 1 } else m := by
  unfold nudgeMachine
  dsimp only
  split
  · rw [sendReminderEmail_machines]
    rfl
  · rfl

theorem flagMachine_machines (s : AppState) (machine : Machine) (now : Int) :
    (flagMachine s machine now).machines =
      s.machines.map fun m => if m.id = machine.id then flagStep m now else m := by
  unfold flagMachine
  dsimp only
  split <;> rfl

theorem submitReport_machines (s : AppState) (mid reason notes : String)
    (photo : Option String) (affect : Bool) (now : Int) (rid : String) :
    (submitReport s mid reason notes photo affect now rid).machines =
      if affect then
        s.machines.map fun m =>
          if m.id = mid then { m with status := .MAINT, eta := none } else m
      else s.machines := by
  unfold submitReport
  cases affect <;> simp [pushNoticeS]

theorem startWash_notices_le (s : AppState) (machine : Machine) (minutes now : Int)
    (washId : String) (h : s.notices.length ≤ 50) :
    (startWash s machine minutes now washId).notices.length ≤ 50 :=
  pushNotice_length_le _ _ h

theorem markCollected_notices_le (s : AppState) (machine : Machine) (now : Int)
    (h : s.notices.length ≤ 50) :
    (markCollected s machine now).notices.length ≤ 50 :=
  pushNotice_length_le _ _ h

theorem nudgeMachine_notices_le (s : AppState) (machine : Machine) (now : Int)
    (h : s.notices.length ≤ 50) :
    (nudgeMachine s machine now).notices.length ≤ 50 := by
  unfold nudgeMachine
  dsimp only
  split
  · exact sendReminderEmail_notices_le _ _ _ (pushNotice_length_le _ _ h)
  · exact pushNotice_length_le _ _ h

theorem flagMachine_notices_le (s : AppState) (machine : Machine) (now : Int)
    (h : s.notices.length ≤ 50) :
    (flagMachine s machine now).notices.length ≤ 50 := by
  unfold flagMachine
  dsimp only
  split <;> exact pushNotice_length_le _ _ h

theorem submitReport_notices_le (s : AppState) (mid reason notes : String)
    (photo : Option String) (affect : Bool) (now : Int) (rid : String)
    (h : s.notices.length ≤ 50) :
    (submitReport s mid reason notes photo affect now rid).notices.length ≤ 50 := by
  unfold submitReport
  cases affect <;> simp only [pushNoticeS, Bool.false_eq_true, if_false, if_pos] <;>
    exact pushNotice_length_le _ _ h

theorem tick_notices_le (s : AppState) (now : Int) (h : s.notices.length ≤ 50) :
    (tick s now).notices.length ≤ 50 := by
  rw [tick_notices_eq]
  exact pushAll_length_le _ _ h

theorem submitBooking_notices_le (s : AppState) (room : Room) (sAt eAt : Int)
    (reason : String) (now : Int) (bid : String) (h : s.notices.length ≤ 50) :
    (submitBooking s room sAt eAt reason now bid).notices.length ≤ 50 :=
  pushNotice_length_le _ _ h

theorem cancelBooking_notices_le (s : AppState) (id : String) (now : Int)
    (h : s.notices.length ≤ 50) :
    (cancelBooking s id now).notices.length ≤ 50 := by
  unfold cancelBooking
  split
  · exact h
  · dsimp only
    split
    · exact pushNotice_length_le _ _ h
    · exact h

theorem extendBooking_notices_le (s : AppState) (id : String) (nE now : Int)
    (h : s.notices.length ≤ 50) :
    (extendBooking s id nE now).1.notices.length ≤ 50 := by
  unfold extendBooking
  split
  · exact h
  · dsimp only
    split
    · split
      · exact h
      · split
        · exact h
        · exact pushNotice_length_le _ _ h
    · exact h

theorem modifyBooking_notices_le (s : AppState) (id : String) (nS nE : Int)
    (newReason : Option String) (now : Int) (h : s.notices.length ≤ 50) :
    (modifyBooking s id nS nE newReason now).1.notices.length ≤ 50 := by
  unfold modifyBooking
  split
  · exact h
  · dsimp only
    split
    · split
      · exact h
      · split
        · exact h
        · split
          · exact h
          · exact pushNotice_length_le _ _ h
    · exact h

/-! ### Claim theorems -/

/-- C4: checkConflict(roomId, startAt, endAt) returns true iff some
existing booking has the same roomId, a status other than CANCELLED and
REJECTED, and satisfies startAt < existing.endAt and endAt >
existing.startAt; in particular a touching, different-room, CANCELLED or
REJECTED booking never conflicts. -/
theorem C4_checkConflict (bs : List Booking) (roomId : String) (startAt endAt : Int) :
    (checkConflict bs roomId startAt endAt = true ↔
      ∃ b ∈ bs, b.roomId = roomId ∧ b.status ≠ .CANCELLED ∧ b.status ≠ .REJECTED ∧
        startAt < b.endAt ∧ endAt > b.startAt) ∧
    (∀ b : Booking,
      (endAt = b.startAt ∨ startAt = b.endAt ∨ b.roomId ≠ roomId ∨
        b.status = .CANCELLED ∨ b.status = .REJECTED) →
      checkConflict [b] roomId startAt endAt = false) := by
  refine ⟨checkConflict_iff bs roomId startAt endAt, ?_⟩
  intro b hb
  cases hcc : checkConflict [b] roomId startAt endAt with
  | false => rfl
  | true =>
    exfalso
    rw [checkConflict_iff] at hcc
    obtain ⟨b', hb', h1, h2, h3, h4, h5⟩ := hcc
    rw [List.mem_singleton] at hb'
    subst hb'
    rcases hb with h | h | h | h | h
    · omega
    · omega
    · exact h h1
    · exact h2 h
    · exact h3 h

/-- Witness for C4: the touching interval [1h,2h) does not conflict with
the stored [0,1h) booking, while the overlapping [0.5h,1.5h) does. -/
theorem C4_checkConflict_witness :
    checkConflict [bApproved] "CR-1" 3600000 7200000 = false ∧
    checkConflict [bApproved] "CR-1" 1800000 5400000 = true := by
  constructor
  · exact (C4_checkConflict [bApproved] "CR-1" 3600000 7200000).2 bApproved
      (Or.inr (Or.inl (by decide)))
  · exact (C4_checkConflict [bApproved] "CR-1" 1800000 5400000).1.mpr
      ⟨bApproved, by decide, by decide, by decide, by decide, by decide, by decide⟩

/-- C7: the notice list is capped at 50 entries under every operation:
pushNotice inserts the new notice at the head, evicts the oldest (last)
entry once the list already holds 50 while keeping the order of the
rest, and every state operation preserves the 50-entry bound. -/
theorem C7_notice_cap (n : Notice) (ns : List Notice) (s : AppState)
    (machine : Machine) (minutes now sAt eAt nS nE : Int)
    (washId reportId mid reason notes bid bkid : String) (photo : Option String)
    (affect : Bool) (room : Room) (newReason : Option String) :
    ((pushNotice n ns).head? = some n) ∧
    (ns.length ≤ 50 → (pushNotice n ns).length ≤ 50) ∧
    (ns.length = 50 → pushNotice n ns = n :: ns.dropLast) ∧
    (ns.length < 50 → pushNotice n ns = n :: ns) ∧
    (s.notices.length ≤ 50 →
      (startWash s machine minutes now washId).notices.length ≤ 50 ∧
      (markCollected s machine now).notices.length ≤ 50 ∧
      (nudgeMachine s machine now).notices.length ≤ 50 ∧
      (flagMachine s machine now).notices.length ≤ 50 ∧
      (submitReport s mid reason notes photo affect now reportId).notices.length ≤ 50 ∧
      (tick s now).notices.length ≤ 50 ∧
      (submitBooking s room sAt eAt reason now bid).notices.length ≤ 50 ∧
      (cancelBooking s bkid now).notices.length ≤ 50 ∧
      (extendBooking s bkid nE now).1.notices.length ≤ 50 ∧
      (modifyBooking s bkid nS nE newReason now).1.notices.length ≤ 50) := by
  refine ⟨pushNotice_head n ns, pushNotice_length_le n ns, pushNotice_of_eq n ns,
    pushNotice_of_lt n ns, fun h => ?_⟩
  exact ⟨startWash_notices_le s machine minutes now washId h,
    markCollected_notices_le s machine now h,
    nudgeMachine_notices_le s machine now h,
    flagMachine_notices_le s machine now h,
    submitReport_notices_le s mid reason notes photo affect now reportId h,
    tick_notices_le s now h,
    submitBooking_notices_le s room sAt eAt reason now bid h,
    cancelBooking_notices_le s bkid now h,
    extendBooking_notices_le s bkid nE now h,
    modifyBooking_notices_le s bkid nS nE newReason now h⟩

/-- Witness for C7 at a 50-entry list, an empty list and a concrete
state. -/
theorem C7_notice_cap_witness :
    pushNotice nTest (List.replicate 50 nTest) =
      nTest :: (List.replicate 50 nTest).dropLast ∧
    (pushNotice nTest []).length ≤ 50 ∧
    (tick sTick 100).notices.length ≤ 50 := by
  have h1 := C7_notice_cap nTest (List.replicate 50 nTest) sTick mRun1 30 100 0 0 0 0
    "w" "r" "m" "rs" "nt" "b" "bk" none false room1 none
  have h2 := C7_notice_cap nTest [] sTick mRun1 30 100 0 0 0 0
    "w" "r" "m" "rs" "nt" "b" "bk" none false room1 none
  refine ⟨h1.2.2.1 (by decide), h2.2.1 (by decide), ?_⟩
  exact ((h1.2.2.2.2 (by decide)).2.2.2.2.2.1)

/-- C6: flagMachine increments flagCount; when the incremented count is
at least 2 it resets both counters, forces AWAITING (whatever the prior
status), refreshes lastCompletedAt to now and emits a report-kind
notice; when the incremented count is 1 it emits only an info notice and
changes neither status nor lastCompletedAt nor nudgeCount. -/
theorem C6_flagMachine (s : AppState) (machine : Machine) (now : Int) :
    ((flagMachine s machine now).machines =
      s.machines.map fun m => if m.id = machine.id then flagStep m now else m) ∧
    (machine.flagCount + 1 ≥ 2 →
      flagStep machine now =
        { machine with flagCount := 0, nudgeCount := 0, status := .AWAITING,
                       lastCompletedAt := some now } ∧
      (flagMachine s machine now).notices =
        pushNotice
          { title := machine.label ++
              " flagged as still occupied. Please collect your clothes.",
            time := now, kind := "report" } s.notices) ∧
    (machine.flagCount + 1 < 2 →
      flagStep machine now = { machine with flagCount := machine.flagCount + 1 } ∧
      (flagStep machine now).status = machine.status ∧
      (flagStep machine now).lastCompletedAt = machine.lastCompletedAt ∧
      (flagStep machine now).nudgeCount = machine.nudgeCount ∧
      (flagMachine s machine now).notices =
        pushNotice
          { title := "Flag recorded for " ++ machine.label ++
              ". One more flag will apply a penalty.",
            time := now, kind := "info" } s.notices) := by
  refine ⟨flagMachine_machines s machine now, fun h => ?_, fun h => ?_⟩
  · constructor
    · unfold flagStep
      rw [if_pos h]
    · unfold flagMachine
      dsimp only
      rw [if_pos h]
      rfl
  · have h' : ¬ machine.flagCount + 1 ≥ 2 := by omega
    refine ⟨?_, ?_, ?_, ?_, ?_⟩
    · unfold flagStep
      rw [if_neg h']
    · unfold flagStep
      rw [if_neg h']
    · unfold flagStep
      rw [if_neg h']
    · unfold flagStep
      rw [if_neg h']
    · unfold flagMachine
      dsimp only
      rw [if_neg h']
      rfl

/-- Witness for C6 on a once-flagged machine (second flag) and a fresh
machine (first flag). -/
theorem C6_flagMachine_witness :
    flagStep mRun 100 =
      { mRun with flagCount := 0, nudgeCount := 0, status := .AWAITING,
                  lastCompletedAt := some 100 } ∧
    flagStep mRun4 100 = { mRun4 with flagCount := 1 } ∧
    (flagStep mRun4 100).status = mRun4.status := by
  have h1 := (C6_flagMachine sC1 mRun 100).2.1 (by decide)
  have h2 := (C6_flagMachine sC1 mRun4 100).2.2 (by decide)
  exact ⟨h1.1, h2.1, h2.2.1⟩

theorem markCollected_washes (s : AppState) (machine : Machine) (now : Int) :
    (markCollected s machine now).washes =
      s.washes.map fun w =>
        if w.machineId = machine.id ∧ (w.status = .AWAITING ∨ w.status = .RUNNING) then
          { w with status := .COLLECTED, endAt := some now }
        else w := rfl

/-- C9: markCollected frees the machine clearing eta and
lastCompletedAt, moves every RUNNING or AWAITING wash of that machine to
COLLECTED with an end timestamp, and a second call changes nothing but
the notice list, which receives exactly one more notice. -/
theorem C9_markCollected (s : AppState) (machine : Machine) (t1 t2 : Int) :
    ((markCollected s machine t1).machines =
      s.machines.map fun m =>
        if m.id = machine.id then
          { m with status := .FREE, eta := none, lastCompletedAt := none }
        else m) ∧
    ((markCollected s machine t1).washes =
      s.washes.map fun w =>
        if w.machineId = machine.id ∧ (w.status = .AWAITING ∨ w.status = .RUNNING) then
          { w with status := .COLLECTED, endAt := some t1 }
        else w) ∧
    ((markCollected (markCollected s machine t1) machine t2).machines =
      (markCollected s machine t1).machines) ∧
    ((markCollected (markCollected s machine t1) machine t2).washes =
      (markCollected s machine t1).washes) ∧
    ((markCollected (markCollected s machine t1) machine t2).bookings =
      (markCollected s machine t1).bookings) ∧
    ((markCollected (markCollected s machine t1) machine t2).notices =
      pushNotice
        { title := "Thank you! " ++ machine.label ++ " is free now.",
          time := t2, kind := "success" }
        (markCollected s machine t1).notices) := by
  refine ⟨rfl, rfl, ?_, ?_, rfl, rfl⟩
  · rw [markCollected_machines, markCollected_machines, List.map_map]
    apply List.map_congr_left
    intro m _
    by_cases h : m.id = machine.id <;> simp [h]
  · rw [markCollected_washes, markCollected_washes, List.map_map]
    apply List.map_congr_left
    intro w _
    by_cases h1 : w.machineId = machine.id
    · by_cases h2 : w.status = .AWAITING ∨ w.status = .RUNNING <;> simp [h1, h2]
    · simp [h1]

theorem wfUpdate_self (fb : String → Nat → Nat) (e : (String × Nat) × Bool) :
    wfUpdate fb fb e = e := by
  unfold wfUpdate
  split
  next h =>
    exfalso
    rcases h with ⟨-, h1, h2⟩
    omega
  next => rfl

theorem wfEmits_self (fb : String → Nat → Nat) (now : Int)
    (e : (String × Nat) × Bool) : wfEmits fb fb now e = [] := by
  unfold wfEmits
  split
  next h =>
    exfalso
    rcases h with ⟨-, h1, h2⟩
    omega
  next => rfl

theorem countFree_after_tick (s : AppState) (now : Int) :
    countFree ((tick s now).machines) = countFree s.machines := by
  rw [tick_machines_eq]
  funext hostel floor
  exact countFree_map_tickMachine s.machines now hostel floor

/-- C8: for the watch-free scan run at the end of a tick over the
before/after free-count snapshots: a raised flag whose floor had zero
free machines before the transitions and more than zero after emits one
success notice and is lowered; a flag whose floor still has zero, or
already had more than zero before, emits nothing and stays raised. -/
theorem C8_watchFree (fb fa : String → Nat → Nat) (now : Int)
    (wf : List ((String × Nat) × Bool)) (ns : List Notice) (s : AppState) :
    ((watchFreeCheck fb fa now wf ns).1 = wf.map (wfUpdate fb fa)) ∧
    ((watchFreeCheck fb fa now wf ns).2 =
      pushAll ns (wf.flatMap (wfEmits fb fa now))) ∧
    (∀ e : (String × Nat) × Bool, e.2 = true →
      fb e.1.1 e.1.2 = 0 → 0 < fa e.1.1 e.1.2 →
      wfUpdate fb fa e = (e.1, false) ∧
      wfEmits fb fa now e =
        [{ title := "A machine is now free on Floor " ++ toString e.1.2 ++ ".",
           time := now, kind := "success" }]) ∧
    (∀ e : (String × Nat) × Bool, fa e.1.1 e.1.2 = 0 ∨ 0 < fb e.1.1 e.1.2 →
      wfUpdate fb fa e = e ∧ wfEmits fb fa now e = []) ∧
    ((tick s now).watchFree =
      (watchFreeCheck (countFree s.machines) (countFree (tick s now).machines) now
        s.watchFree []).1) := by
  refine ⟨?_, ?_, ?_, ?_, ?_⟩
  · rw [watchFreeCheck_eq]
  · rw [watchFreeCheck_eq]
  · intro e h2 h0 h1
    constructor
    · unfold wfUpdate
      rw [if_pos ⟨by rw [h2], h0, h1⟩]
    · unfold wfEmits
      rw [if_pos ⟨by rw [h2], h0, h1⟩]
  · intro e h
    have hneg : ¬ (e.2 ∧ fb e.1.1 e.1.2 = 0 ∧ 0 < fa e.1.1 e.1.2) := by
      rintro ⟨-, h1, h2⟩
      rcases h with h | h <;> omega
    constructor
    · unfold wfUpdate
      rw [if_neg hneg]
    · unfold wfEmits
      rw [if_neg hneg]
  · have hfa : countFree (s.machines.map fun m => tickMachine m now) =
        countFree s.machines := by
      funext hostel floor
      exact countFree_map_tickMachine s.machines now hostel floor
    rw [watchFreeCheck_eq, tick_watchFree_eq, countFree_after_tick, hfa]

/-- Witness for C8 at concrete snapshot functions and flag entries. -/
theorem C8_watchFree_witness :
    (watchFreeCheck (fun _ _ => 0) (fun _ _ => 1) 100 [(("LVH", 3), true)] []).1 =
      [(("LVH", 3), false)] ∧
    (watchFreeCheck (fun _ _ => 2) (fun _ _ => 3) 100 [(("LVH", 3), true)] []).1 =
      [(("LVH", 3), true)] ∧
    wfEmits (fun _ _ => 2) (fun _ _ => 3) 100 (("LVH", 3), true) = [] ∧
    wfEmits (fun _ _ => 0) (fun _ _ => 1) 100 (("LVH", 3), true) =
      [{ title := "A machine is now free on Floor 3.", time := 100,
         kind := "success" }] := by
  have h1 := C8_watchFree (fun _ _ => 0) (fun _ _ => 1) 100 [(("LVH", 3), true)] []
    emptyState
  have h2 := C8_watchFree (fun _ _ => 2) (fun _ _ => 3) 100 [(("LVH", 3), true)] []
    emptyState
  have e1 := h1.2.2.1 (("LVH", 3), true) rfl rfl (by omega)
  have e2 := h2.2.2.2.1 (("LVH", 3), true) (Or.inr (by omega))
  refine ⟨?_, ?_, e2.2, ?_⟩
  · rw [h1.1, List.map_cons, List.map_nil, e1.1]
  · rw [h2.1, List.map_cons, List.map_nil, e2.1]
  · have : ("A machine is now free on Floor " ++ toString (3 : Nat) ++ ".") =
        "A machine is now free on Floor 3." := by decide
    rw [e1.2, this]

/-- C10: the per-machine transitions of a tick never produce a FREE
machine, so every per-floor FREE count is unchanged by the tick, the
watch-free success branch never fires inside a tick (the tick emits only
countdown notices), and the watch-free flags are untouched by the tick
handler. -/
theorem C10_tick_no_free (s : AppState) (now : Int) :
    (∀ m : Machine, (tickMachine m now).status = .FREE ↔ m.status = .FREE) ∧
    ((tick s now).machines = s.machines.map fun m => tickMachine m now) ∧
    (∀ hostel floor, countFree (tick s now).machines hostel floor =
      countFree s.machines hostel floor) ∧
    ((tick s now).watchFree = s.watchFree) ∧
    ((tick s now).notices =
      pushAll s.notices (s.machines.flatMap (tickEmits now))) := by
  refine ⟨fun m => tickMachine_free_iff m now, tick_machines_eq s now, ?_, ?_, ?_⟩
  · intro hostel floor
    rw [countFree_after_tick]
  · rw [tick_watchFree_eq]
    have hfa : countFree (s.machines.map fun m => tickMachine m now) =
        countFree s.machines := by
      funext hostel floor
      exact countFree_map_tickMachine s.machines now hostel floor
    rw [hfa]
    rw [List.map_congr_left fun e _ => wfUpdate_self (countFree s.machines) e]
    exact List.map_id s.watchFree
  · rw [tick_notices_eq]
    have hfa : countFree (s.machines.map fun m => tickMachine m now) =
        countFree s.machines := by
      funext hostel floor
      exact countFree_map_tickMachine s.machines now hostel floor
    rw [hfa]
    have hnil : s.watchFree.flatMap
        (wfEmits (countFree s.machines) (countFree s.machines) now) = [] := by
      rw [List.flatMap_eq_nil_iff]
      exact fun e _ => wfEmits_self (countFree s.machines) now e
    rw [hnil, List.append_nil]

/-- C5: one tick maps every machine pointwise: a RUNNING machine with an
eta is decremented; when the decremented eta is exactly 3 (and only
then) the countdown emits the finishing info notice; when the
decremented eta is at or below 0 the machine becomes AWAITING with eta
cleared and lastCompletedAt set to the tick time, every RUNNING wash of
that machine becomes AWAITING with an end timestamp, and a success
notice is emitted; machines not RUNNING are left unchanged. -/
theorem C5_tick (s : AppState) (now : Int) :
    ((tick s now).machines = s.machines.map fun m => tickMachine m now) ∧
    ((tick s now).washes = s.washes.map (tickWash s.machines now)) ∧
    (∀ m : Machine, ∀ e : Int, m.status = .RUNNING → m.eta = some e →
      (tickMachine m now =
        if e - 1 ≤ 0 then
          { m with status := .AWAITING, eta := none, lastCompletedAt := some now }
        else { m with eta := some (e - 1) }) ∧
      (tickEmits now m =
        (if e - 1 = 3 then
          [{ title := m.label ++ " finishing in ~3 minutes.", time := now,
             kind := "info" }]
         else []) ++
        (if e - 1 ≤ 0 then
          [{ title := m.label ++ " finished. Please collect clothes.", time := now,
             kind := "success" }]
         else [])) ∧
      (completesAt m = true ↔ e - 1 ≤ 0)) ∧
    (∀ m : Machine, m.status ≠ .RUNNING →
      tickMachine m now = m ∧ tickEmits now m = [] ∧ completesAt m = false) ∧
    (∀ w : Wash, w.status = .RUNNING →
      (∃ m ∈ s.machines, completesAt m = true ∧ m.id = w.machineId) →
      tickWash s.machines now w = { w with status := .AWAITING, endAt := some now }) ∧
    (∀ w : Wash,
      w.status ≠ .RUNNING ∨ ¬(∃ m ∈ s.machines, completesAt m = true ∧ m.id = w.machineId) →
      tickWash s.machines now w = w) ∧
    ((tick s now).notices =
      pushAll s.notices
        (s.machines.flatMap (tickEmits now) ++
          s.watchFree.flatMap
            (wfEmits (countFree s.machines) (countFree (tick s now).machines) now))) := by
  refine ⟨tick_machines_eq s now, tick_washes_eq s now, ?_, ?_, ?_, ?_, ?_⟩
  · intro m e hs he
    refine ⟨?_, ?_, ?_⟩
    · rw [tickMachine_running m now e hs he]
    · unfold tickEmits
      rw [if_pos ⟨hs, by rw [he]; rfl⟩, he]
      rfl
    · unfold completesAt
      rw [he]
      simp [hs]
  · intro m hs
    refine ⟨tickMachine_not_running m now hs, ?_, ?_⟩
    · unfold tickEmits
      rw [if_neg]
      rintro ⟨h, -⟩
      exact hs h
    · unfold completesAt
      simp [hs]
  · intro w hw hex
    unfold tickWash
    rw [if_pos ⟨hw, hex⟩]
  · intro w h
    unfold tickWash
    rw [if_neg]
    rintro ⟨h1, h2⟩
    rcases h with h | h
    · exact h h1
    · exact h h2
  · have hfa : countFree (s.machines.map fun m => tickMachine m now) =
        countFree s.machines := by
      funext hostel floor
      exact countFree_map_tickMachine s.machines now hostel floor
    rw [tick_notices_eq, countFree_after_tick, hfa]

/-- Witness for C5 on a machine in its last minute and one four minutes
from done. -/
theorem C5_tick_witness :
    tickMachine mRun1 100 =
      { mRun1 with status := .AWAITING, eta := none, lastCompletedAt := some 100 } ∧
    tickMachine mRun4 100 = { mRun4 with eta := some 3 } ∧
    tickEmits 100 mRun4 =
      [{ title := "M-1A finishing in ~3 minutes.", time := 100, kind := "info" }] ∧
    tickEmits 100 mRun1 =
      [{ title := "M-1A finished. Please collect clothes.", time := 100,
         kind := "success" }] ∧
    tickMachine mAwait 100 = mAwait ∧
    tickWash sTick.machines 100 wRun = { wRun with status := .AWAITING, endAt := some 100 } := by
  have h1 := (C5_tick sTick 100).2.2.1 mRun1 1 rfl rfl
  have h4 := (C5_tick { emptyState with machines := [mRun4] } 100).2.2.1 mRun4 4 rfl rfl
  have hA := (C5_tick sC1b 100).2.2.2.1 mAwait (by decide)
  have hw := (C5_tick sTick 100).2.2.2.2.1 wRun rfl
    ⟨mRun1, by decide, by decide, by decide⟩
  refine ⟨?_, ?_, ?_, ?_, hA.1, hw⟩
  · rw [h1.1]
    norm_num
  · rw [h4.1]
    norm_num
  · rw [h4.2.1]
    norm_num
    rfl
  · rw [h1.2.1]
    norm_num
    rfl

/-- Counterexample for C1: the invariant holds before, yet flagging a
RUNNING machine twice leaves it AWAITING with eta still set, forcing a
maintenance report on an AWAITING machine leaves lastCompletedAt set on
a MAINT machine, and starting a wash on an AWAITING machine leaves
lastCompletedAt set on a RUNNING machine. -/
theorem C1_counterexample :
    (∀ m ∈ sC1.machines, MInv m) ∧
    (∃ m ∈ (flagMachine sC1 mRun 100).machines,
      m.status = .AWAITING ∧ m.eta = some 5 ∧ ¬ MInv m) ∧
    (∀ m ∈ sC1b.machines, MInv m) ∧
    (∃ m ∈ (submitReport sC1b "m2" "Not working" "" none true 100 "r1").machines,
      m.status = .MAINT ∧ m.lastCompletedAt = some 50 ∧ ¬ MInv m) ∧
    (∃ m ∈ (startWash sC1b mAwait 30 100 "w9").machines,
      m.status = .RUNNING ∧ m.lastCompletedAt = some 50 ∧ ¬ MInv m) := by
  decide

/-- C1 (amended): assuming the invariant (eta set iff RUNNING,
lastCompletedAt set iff AWAITING) for every machine in the state, it is
preserved by tick, markCollected and nudgeMachine unconditionally; by
startWash and by submitReport when no machine carrying the target id is
AWAITING; and by flagMachine when no machine carrying the target id is
RUNNING.  (flagMachine does not clear eta and neither startWash nor
submitReport clears lastCompletedAt, so the remaining cases fail.) -/
theorem C1_amended (s : AppState) (machine : Machine) (minutes now : Int)
    (washId reportId mid reason notes : String) (photo : Option String)
    (affect : Bool) (hInv : ∀ m ∈ s.machines, MInv m) :
    (∀ m ∈ (tick s now).machines, MInv m) ∧
    (∀ m ∈ (markCollected s machine now).machines, MInv m) ∧
    (∀ m ∈ (nudgeMachine s machine now).machines, MInv m) ∧
    ((∀ m ∈ s.machines, m.id = machine.id → m.status ≠ .AWAITING) →
      ∀ m ∈ (startWash s machine minutes now washId).machines, MInv m) ∧
    ((∀ m ∈ s.machines, m.id = machine.id → m.status ≠ .RUNNING) →
      ∀ m ∈ (flagMachine s machine now).machines, MInv m) ∧
    ((∀ m ∈ s.machines, m.id = mid → m.status ≠ .AWAITING) →
      ∀ m ∈ (submitReport s mid reason notes photo affect now reportId).machines,
        MInv m) := by
  refine ⟨?_, ?_, ?_, ?_, ?_, ?_⟩
  · rw [tick_machines_eq]
    intro m' hm'
    obtain ⟨m, hm, rfl⟩ := List.mem_map.mp hm'
    exact MInv_tickMachine m now (hInv m hm)
  · rw [markCollected_machines]
    intro m' hm'
    obtain ⟨m, hm, rfl⟩ := List.mem_map.mp hm'
    by_cases h : m.id = machine.id
    · rw [if_pos h]
      exact MInv_freeStep m
    · rw [if_neg h]
      exact hInv m hm
  · rw [nudgeMachine_machines]
    intro m' hm'
    obtain ⟨m, hm, rfl⟩ := List.mem_map.mp hm'
    by_cases h : m.id = machine.id
    · rw [if_pos h]
      exact MInv_nudgeStep m (hInv m hm)
    · rw [if_neg h]
      exact hInv m hm
  · intro hA
    rw [startWash_machines]
    intro m' hm'
    obtain ⟨m, hm, rfl⟩ := List.mem_map.mp hm'
    by_cases h : m.id = machine.id
    · rw [if_pos h]
      exact MInv_startStep m minutes _ (hInv m hm) (hA m hm h)
    · rw [if_neg h]
      exact hInv m hm
  · intro hR
    rw [flagMachine_machines]
    intro m' hm'
    obtain ⟨m, hm, rfl⟩ := List.mem_map.mp hm'
    by_cases h : m.id = machine.id
    · rw [if_pos h]
      exact MInv_flagStep m now (hInv m hm) (hR m hm h)
    · rw [if_neg h]
      exact hInv m hm
  · intro hA
    rw [submitReport_machines]
    intro m' hm'
    rcases affect with _ | _
    · rw [if_neg (by simp)] at hm'
      exact hInv m' hm'
    · rw [if_pos rfl] at hm'
      obtain ⟨m, hm, rfl⟩ := List.mem_map.mp hm'
      by_cases h : m.id = mid
      · rw [if_pos h]
        exact MInv_maintStep m (hInv m hm) (hA m hm h)
      · rw [if_neg h]
        exact hInv m hm

/-- Witness for C1 (amended) on a one-machine state holding the
invariant. -/
theorem C1_amended_witness :
    (∀ m ∈ (tick sC1 100).machines, MInv m) ∧
    (∀ m ∈ (flagMachine sC1b mAwait 100).machines, MInv m) ∧
    (∀ m ∈ (startWash sC1 mRun 30 100 "w9").machines, MInv m) := by
  have h := C1_amended sC1 mRun 30 100 "w9" "r1" "m1" "Not working" "" none true
    (by decide)
  have h2 := C1_amended sC1b mAwait 30 100 "w9" "r1" "m2" "Not working" "" none true
    (by decide)
  exact ⟨h.1, h2.2.2.2.2.1 (by decide), h.2.2.2.1 (by decide)⟩

/-- C2 evaluated at the failing input: with a single APPROVED one-hour
booking on the room and no other booking anywhere, a two-hour extension
within the 24-hour cap is rejected as a conflict and the state is left
unchanged — the conflict scan runs over all bookings and the booking
being extended overlaps its own requested interval. -/
theorem C2_self_conflict :
    extendBooking sBook "b1" 7200000 100 =
      (sBook, some "Requested extension overlaps with another booking.") ∧
    sBook.bookings = [bApproved] ∧
    bApproved.status = .APPROVED ∧
    7200000 - bApproved.startAt ≤ 24 * 60 * 60 * 1000 ∧
    checkConflict sBook.bookings bApproved.roomId bApproved.startAt 7200000 = true := by
  decide

/-- Counterexample for C3: submitBooking performs no duration validation
at all — a 25-hour request is appended to the bookings list with no
error, where the claim requires rejection with no state change; and an
exactly-24-hour extension of the sole APPROVED booking is not accepted
either, since the conflict scan trips on the booking itself. -/
theorem C3_counterexample :
    (25 * 60 * 60 * 1000 : Int) - 0 > 24 * 60 * 60 * 1000 ∧
    (submitBooking emptyState room1 0 (25 * 60 * 60 * 1000) "study" 5 "b9").bookings =
      [{ id := "b9", roomId := "CR-1", roomLabel := "Common Room 1", hasAC := true,
         startAt := 0, endAt := 25 * 60 * 60 * 1000, reason := "study",
         status := .PENDING, createdAt := 5, updatedAt := 5 }] ∧
    emptyState.bookings = [] ∧
    (86400000 : Int) - bApproved.startAt = 24 * 60 * 60 * 1000 ∧
    extendBooking sBook "b1" 86400000 100 =
      (sBook, some "Requested extension overlaps with another booking.") := by
  decide

/-- C3 (amended): modifyBooking and extendBooking reject a duration
beyond 24 hours with a validation error and no state change, and their
duration check passes at exactly 24 hours (the request then stands or
falls with the conflict scan alone); submitBooking performs no duration
validation and appends the booking whatever the range. -/
theorem C3_amended (s : AppState) (room : Room) (sAt eAt now nS nE : Int)
    (reason bid id : String) (newReason : Option String) (idx : Nat) (b : Booking)
    (hidx : s.bookings.findIdx? (fun x => x.id == id) = some idx)
    (hb : s.bookings.getD idx default = b) :
    ((submitBooking s room sAt eAt reason now bid).bookings =
      { id := bid, roomId := room.id, roomLabel := room.label, hasAC := room.hasAC,
        startAt := sAt, endAt := eAt, reason := reason, status := .PENDING,
        createdAt := now, updatedAt := now } :: s.bookings) ∧
    (b.status = .APPROVED → nE - b.startAt > 86400000 →
      extendBooking s id nE now =
        (s, some "Extension exceeds 24 hours from start time.")) ∧
    (b.status = .APPROVED → nE - b.startAt ≤ 86400000 →
      (extendBooking s id nE now).2 ≠
        some "Extension exceeds 24 hours from start time.") ∧
    ((b.status = .PENDING ∨ b.status = .APPROVED) → nE - nS > 86400000 →
      modifyBooking s id nS nE newReason now =
        (s, some "Bookings cannot exceed 24 hours.")) ∧
    ((b.status = .PENDING ∨ b.status = .APPROVED) → nE - nS = 86400000 →
      checkConflict s.bookings b.roomId nS nE = false →
      (modifyBooking s id nS nE newReason now).2 = none ∧
      (modifyBooking s id nS nE newReason now).1.bookings =
        s.bookings.set idx
          { b with startAt := nS, endAt := nE, reason := newReason.getD b.reason,
                   status := .PENDING, updatedAt := now }) := by
  subst hb
  refine ⟨rfl, ?_, ?_, ?_, ?_⟩
  · intro hst hgt
    unfold extendBooking
    rw [hidx]
    dsimp only
    rw [if_pos hst, if_pos (by omega)]
  · intro hst hle
    unfold extendBooking
    rw [hidx]
    dsimp only
    rw [if_pos hst, if_neg (by omega)]
    split
    · intro hc
      rw [Prod.snd] at hc
      injection hc with hc
      exact absurd hc (by decide)
    · intro hc
      rw [Prod.snd] at hc
      exact Option.noConfusion hc
  · intro hst hgt
    unfold modifyBooking
    rw [hidx]
    dsimp only
    rw [if_pos hst, if_neg (by omega), if_pos (by omega)]
  · intro hst heq hcc
    unfold modifyBooking
    rw [hidx]
    dsimp only
    rw [if_pos hst, if_neg (by omega), if_neg (by omega),
      if_neg (by rw [hcc]; exact Bool.false_ne_true)]
    exact ⟨rfl, rfl⟩

/-- Witness for C3 (amended) on the one-booking state: a 25-hour extend
and modify are rejected, a disjoint exactly-24-hour modify succeeds, and
submitBooking appends a 25-hour booking unconditionally. -/
theorem C3_amended_witness :
    ((submitBooking sBook room1 0 90000000 "study" 100 "b9").bookings =
      { id := "b9", roomId := "CR-1", roomLabel := "Common Room 1", hasAC := true,
        startAt := 0, endAt := 90000000, reason := "study", status := .PENDING,
        createdAt := 100, updatedAt := 100 } :: sBook.bookings) ∧
    (extendBooking sBook "b1" 90000000 100 =
      (sBook, some "Extension exceeds 24 hours from start time.")) ∧
    ((extendBooking sBook "b1" 86400000 100).2 ≠
      some "Extension exceeds 24 hours from start time.") ∧
    (modifyBooking sBook "b1" 0 90000000 none 100 =
      (sBook, some "Bookings cannot exceed 24 hours.")) ∧
    ((modifyBooking sBook "b1" 10000000 96400000 none 100).2 = none) := by
  have hA := C3_amended sBook room1 0 90000000 100 0 90000000 "study" "b9" "b1"
    none 0 bApproved (by decide) (by decide)
  have hB := C3_amended sBook room1 0 90000000 100 10000000 96400000 "study" "b9" "b1"
    none 0 bApproved (by decide) (by decide)
  have hC := C3_amended sBook room1 0 90000000 100 0 86400000 "study" "b9" "b1"
    none 0 bApproved (by decide) (by decide)
  exact ⟨hA.1, hA.2.1 (by decide) (by decide), hC.2.2.1 (by decide) (by decide),
    hA.2.2.2.1 (Or.inr (by decide)) (by decide),
    (hB.2.2.2.2 (Or.inr (by decide)) (by decide) (by decide)).1⟩
